import Mathlib

/-!
Verification of the per-call voice-turn orchestrator of the
`deepgram-listener` repository.  The JavaScript source is shallowly
embedded: strings are `String` (lists of characters), timestamps are
`Int` milliseconds, fallible external calls are modelled by explicit
outcome values, and every handler becomes a pure state-transition
function.  Namespaces mirror the source files the definitions come
from (`Part001`, `Part003`, `Part009`, `IndexJs`); `textUtils` holds
the text utilities that are identical across the variants.
-/

/-! ## JavaScript string primitives -/

/-- The character class `\w` of a JavaScript regular expression:
ASCII letters, digits and underscore. -/
def jsWordChar (c : Char) : Bool :=
  c.isAlpha || c.isDigit || c == '_'

/-- JavaScript `String.prototype.trim`: remove leading and trailing
whitespace from a list of characters. -/
def jsTrim (l : List Char) : List Char :=
  ((l.dropWhile Char.isWhitespace).reverse.dropWhile Char.isWhitespace).reverse

/-- JavaScript `String.prototype.toLowerCase` (ASCII fragment). -/
def jsLower (l : List Char) : List Char :=
  l.map Char.toLower

/-- Scanner for `replace(/\s+/g, ' ')`: the flag records whether the
previous character belonged to a whitespace run already replaced. -/
def collapseWsAux : Bool → List Char → List Char
  | _, [] => []
  | inRun, c :: rest =>
    if c.isWhitespace then
      if inRun then collapseWsAux true rest
      else ' ' :: collapseWsAux true rest
    else c :: collapseWsAux false rest

/-- JavaScript `replace(/\s+/g, ' ')`: every maximal whitespace run
becomes a single space. -/
def collapseWs (l : List Char) : List Char :=
  collapseWsAux false l

/-- Scanner for `split(/\s+/)`: when the flag is set the scanner is
inside a separator run; `cur` is the current token, reversed. -/
def jsSplitWsAux : Bool → List Char → List Char → List (List Char)
  | false, cur, [] => [cur.reverse]
  | false, cur, c :: rest =>
    if c.isWhitespace then cur.reverse :: jsSplitWsAux true [] rest
    else jsSplitWsAux false (c :: cur) rest
  | true, _, [] => [[]]
  | true, _, c :: rest =>
    if c.isWhitespace then jsSplitWsAux true [] rest
    else jsSplitWsAux false [c] rest

/-- JavaScript `text.split(/\s+/)`: tokens separated by maximal
whitespace runs, with empty tokens at a leading or trailing run,
and `""` splitting to `[""]`. -/
def jsSplitWs (text : String) : List (List Char) :=
  jsSplitWsAux false [] text.data

/-- One global-flag replacement pass for a pattern of the shape
`/(\w)T(\w)?/g` with replacement `$1R$2`, as used by the colloquialism
expansions (`T` is `target`, `R` is `repl`).  The scan is left to
right and non-overlapping; a matched optional trailing word character
is consumed together with the target.  `fuel` bounds the recursion by
the length of the remaining input. -/
def replaceColloqAux (target repl : List Char) : Nat → List Char → List Char
  | 0, l => l
  | _ + 1, [] => []
  | fuel + 1, c :: rest =>
    if jsWordChar c && target.isPrefixOf rest then
      match rest.drop target.length with
      | [] => c :: repl
      | d :: rest3 =>
        if jsWordChar d then c :: (repl ++ d :: replaceColloqAux target repl fuel rest3)
        else c :: (repl ++ replaceColloqAux target repl fuel (d :: rest3))
    else c :: replaceColloqAux target repl fuel rest

/-- JavaScript `text.replace(/(\w)target(\w)?/g, '$1repl$2')`. -/
def replaceColloq (target repl : String) (l : List Char) : List Char :=
  replaceColloqAux target.data repl.data l.length l

/-- The test `/[.!?]$/.test(s)`: the string ends in terminal
punctuation. -/
def endsInTerminalPunct (l : List Char) : Bool :=
  match l.getLast? with
  | some c => c == '.' || c == '!' || c == '?'
  | none => false

/-! ## `textUtils` (identical in `part_001`, `part_009`, `part_003`) -/

namespace textUtils

/-- The fixed closing phrases of `isEndOfThought`. -/
def endPhrases : List String :=
  ["okay", "right", "you see", "you know what i mean", "thank you"]

/-- `textUtils.isEndOfThought(text, timeSinceLast)`: silence longer
than 1500 ms, terminal punctuation on the trimmed text, or a closing
phrase at the end of the lowercased trimmed text. -/
def isEndOfThought (text : String) (timeSinceLast : Int) : Bool :=
  if timeSinceLast > 1500 then true
  else if endsInTerminalPunct (jsTrim text.data) then true
  else endPhrases.any fun phrase =>
    phrase.data.isSuffixOf (jsTrim (jsLower text.data))

/-- `textUtils.cleanTranscript(text)`: collapse whitespace, trim, then
expand the three colloquialisms in source order. -/
def cleanTranscript (text : String) : String :=
  ⟨replaceColloq "dunno" "don\x27t know"
    (replaceColloq "wanna" "want to"
      (replaceColloq "gonna" "going to"
        (jsTrim (collapseWs text.data))))⟩

/-- `textUtils.hasMinimumQuality(text)` of `part_001`/`part_009`/
`part_003`: at least two `split(/\s+/)` words and at least five
characters. -/
def hasMinimumQuality (text : String) : Bool :=
  decide ((jsSplitWs text).length ≥ 2) && decide (text.data.length ≥ 5)

/-- The fixed filler-word set of `part_009`/`part_003`. -/
def fillerWords : List String :=
  ["uh", "umm", "hmm", "ah", "eh", "like", "you know",
   "well", "so", "basically", "actually", "literally"]

/-- `textUtils.isFiller(text)`: the lowercased trimmed text is exactly
one of the filler words. -/
def isFiller (text : String) : Bool :=
  fillerWords.contains ⟨jsTrim (jsLower text.data)⟩

end textUtils

/-! ## Conversation messages (shared data model) -/

/-- Role tag of a conversation message. -/
inductive Role where
  | system
  | user
  | assistant
deriving DecidableEq, Repr

/-- One role-tagged conversation message. -/
structure Message where
  role : Role
  content : String
deriving DecidableEq, Repr

/-! ## `index.js` variants -/

namespace IndexJs

/-- `textUtils.hasMinimumQuality` of `index.js`: accept any utterance
whose trimmed text has at least two characters. -/
def hasMinimumQuality (text : String) : Bool :=
  decide ((jsTrim text.data).length ≥ 2)

/-- `ConversationManager.add` of `index.js`: push the message, then
`ctx.splice(1, ctx.length - 10)` once the list exceeds ten entries,
keeping the head plus the most recent nine. -/
def add (ctx : List Message) (m : Message) : List Message :=
  let c := ctx ++ [m]
  if c.length > 10 then c.take 1 ++ c.drop (1 + (c.length - 10)) else c

end IndexJs

/-! ## `part_001`: rate limiter, reply generation, audio buffer,
transcription-message handler -/

namespace Part001

/-- `RATE_LIMIT_WINDOW` (ms). -/
def RATE_LIMIT_WINDOW : Int := 60000

/-- `MAX_REQUESTS_PER_WINDOW`. -/
def MAX_REQUESTS_PER_WINDOW : Nat := 50

/-- The fixed fallback-response pool `FALLBACK_RESPONSES`. -/
def FALLBACK_RESPONSES : List String :=
  ["Hello, I can hear you.",
   "Yes, I\x27m listening.",
   "Please go ahead.",
   "I understand.",
   "Please continue.",
   "I\x27m here to help.",
   "Tell me more.",
   "I\x27m following."]

/-- The fixed apology returned when the rate limiter rejects a
request. -/
def rateLimitApology : String :=
  "I apologize, but I\x27m receiving too many requests right now. Could you please repeat that?"

/-- `checkRateLimit()`: evict expired timestamps from the front of
the shared array, then admit (recording `now`) only while fewer than
`MAX_REQUESTS_PER_WINDOW` admissions remain in the window.  Returns
the admission verdict together with the updated timestamp array. -/
def checkRateLimit (now : Int) (requestTimestamps : List Int) : Bool × List Int :=
  let ts := requestTimestamps.dropWhile fun t => decide (t < now - RATE_LIMIT_WINDOW)
  if ts.length < MAX_REQUESTS_PER_WINDOW then (true, ts ++ [now])
  else (false, ts)

/-- `ConversationManager.updateContext`: push the message, then once
the list exceeds ten entries keep `messages[0]` plus `slice(-9)`. -/
def updateContext (messages : List Message) (m : Message) : List Message :=
  let ms := messages ++ [m]
  if ms.length > 10 then ms.take 1 ++ ms.drop (ms.length - 9) else ms

/-- JavaScript `x || d` on an optional string: `undefined` and the
empty string both select the default. -/
def jsOrDefault (x : Option String) (d : String) : String :=
  match x with
  | some s => if s = "" then d else s
  | none => d

/-- Outcome of the OpenAI chat-completion round trip: `ok content`
models a 2xx response whose first choice carries `content` (possibly
absent), `err` models a thrown fetch error, a timeout, or a non-ok
HTTP status (quota, auth, …), all of which reach the same `catch`. -/
inductive OpenAIOutcome where
  | ok (content : Option String)
  | err
deriving DecidableEq, Repr

/-- Observable result of one `generateAIResponse` call: the returned
text, the conversation messages and rate-limiter state afterwards,
and whether the OpenAI service was invoked, a response-time metric
sample recorded, and a `conversation_turns` row written. -/
structure GenOutput where
  response : Option String
  messages : List Message
  requestTimestamps : List Int
  openaiInvoked : Bool
  responseTimeRecorded : Bool
  turnRowWritten : Bool
deriving DecidableEq, Repr

/-- `generateAIResponse(callId, userMessage)` of `part_001`.
`haveContext` models whether `conversationManager.getContext` found a
context; `outcome` is the OpenAI round trip's result and `randIdx`
the random draw used for a fallback line. -/
def generateAIResponse (haveContext : Bool) (messages : List Message)
    (requestTimestamps : List Int) (now : Int) (userMessage : String)
    (outcome : OpenAIOutcome) (randIdx : Nat) : GenOutput :=
  if !haveContext then
    ⟨none, messages, requestTimestamps, false, false, false⟩
  else
    match checkRateLimit now requestTimestamps with
    | (admitted, ts) =>
      if !admitted then
        ⟨some rateLimitApology, messages, ts, false, false, false⟩
      else
        let messages1 := updateContext messages ⟨Role.user, userMessage⟩
        match outcome with
        | OpenAIOutcome.ok content =>
          let aiResponse := jsOrDefault content (FALLBACK_RESPONSES.getD 0 "")
          let messages2 := updateContext messages1 ⟨Role.assistant, aiResponse⟩
          ⟨some aiResponse, messages2, ts, true, true, true⟩
        | OpenAIOutcome.err =>
          ⟨some (FALLBACK_RESPONSES.getD (randIdx % FALLBACK_RESPONSES.length) ""),
           messages1, ts, true, false, false⟩

/-- An inbound audio frame (raw bytes). -/
def Frame := List Nat
deriving DecidableEq

/-- The `AudioBuffer` class: FIFO frame list plus the
duplicate-connect guard. -/
structure AudioBuffer where
  buffer : List Frame
  isConnecting : Bool
deriving DecidableEq

/-- `AudioBuffer.add(data)`. -/
def AudioBuffer.add (b : AudioBuffer) (data : Frame) : AudioBuffer :=
  { b with buffer := b.buffer ++ [data] }

/-- `AudioBuffer.clear()`. -/
def AudioBuffer.clear (b : AudioBuffer) : AudioBuffer :=
  { b with buffer := [] }

/-- The drain loop of `connectToDeepgram`: each buffered frame is
sent iff the Deepgram socket reports `OPEN`; returns the frames
actually delivered in order. -/
def sendBuffered (wsOpen : Bool) : List Frame → List Frame
  | [] => []
  | d :: rest => if wsOpen then d :: sendBuffered wsOpen rest else sendBuffered wsOpen rest

/-- The buffered-audio drain of `connectToDeepgram`: when the buffer
is non-empty, deliver its frames and clear it.  Returns the delivered
frames and the buffer afterwards. -/
def drainBufferedAudio (wsOpen : Bool) (b : AudioBuffer) : List Frame × AudioBuffer :=
  if b.buffer.length > 0 then (sendBuffered wsOpen b.buffer, b.clear) else ([], b)

/-- The Plivo media handler while the Deepgram socket is not open:
every arriving frame is appended to the buffer. -/
def bufferIncomingAudio (frames : List Frame) (b : AudioBuffer) : AudioBuffer :=
  frames.foldl AudioBuffer.add b

/-- One parsed Deepgram websocket message, as read by the `part_001`
handler: the `type === 'Results'` tag, the `is_final` flag, and
`channel.alternatives[0].transcript` when present. -/
structure DgMessage where
  isResultsType : Bool
  is_final : Bool
  transcript : Option String
deriving DecidableEq, Repr

/-- The `deepgramWs.on('message')` handler of `part_001`, restricted
to its segmentation effect: given the current `transcriptBuffer` it
returns the buffer afterwards and the utterance emitted, if any.
Only `Results` messages with `is_final` are processed; the elapsed
time passed to `isEndOfThought` is the literal `1000` of the source. -/
def handleDeepgramMessage (transcriptBuffer : String) (msg : DgMessage) :
    String × Option String :=
  if msg.isResultsType && msg.is_final then
    match msg.transcript with
    | none => (transcriptBuffer, none)
    | some t =>
      if jsTrim t.data = [] then (transcriptBuffer, none)
      else
        let buf := transcriptBuffer ++ " " ++ t
        if textUtils.isEndOfThought t 1000 then
          let fullUtterance := textUtils.cleanTranscript buf
          if textUtils.hasMinimumQuality fullUtterance then ("", some fullUtterance)
          else ("", none)
        else (buf, none)
  else (transcriptBuffer, none)

end Part001

/-! ## `part_009`: segmenter context and fragment processing -/

namespace Part009

/-- The per-call segmenter fields of the conversation context used by
the `part_009` Deepgram message handler. -/
structure SegContext where
  transcriptBuffer : String
  lastProcessedTime : Int
deriving DecidableEq, Repr

/-- Observable result of handling one Deepgram transcript fragment:
the context afterwards, the utterance emitted (if any), the
`user_speaking` metric sample recorded (if any), and the
`transcripts` row written (transcript text and confidence, if any). -/
structure FragResult where
  ctx : SegContext
  emitted : Option String
  userSpeakingMs : Option Int
  storedRow : Option (String × ℚ)
deriving DecidableEq, Repr

/-- The `deepgramWs.on('message')` handler of `part_009` for a
message carrying `channel.alternatives`, restricted to its
segmentation effect.  `spokenText` and `confidence` are
`alternatives[0].transcript` / `.confidence`; `now` is `Date.now()`.
Empty text returns early; otherwise `lastProcessedTime` is updated
unconditionally, the `user_speaking` metric is recorded, non-filler
text is appended to the buffer, and the end-of-turn / quality gates
run; the `transcripts` row is written for every non-empty fragment. -/
def processFragment (ctx : SegContext) (spokenText : String) (confidence : ℚ)
    (now : Int) : FragResult :=
  if spokenText = "" then ⟨ctx, none, none, none⟩
  else
    let timeSinceLast := now - ctx.lastProcessedTime
    let ctx1 : SegContext := { ctx with lastProcessedTime := now }
    let row := some (spokenText, confidence)
    if !(textUtils.isFiller spokenText) then
      let buf := ctx1.transcriptBuffer ++ " " ++ spokenText
      if textUtils.isEndOfThought spokenText timeSinceLast then
        let fullUtterance := textUtils.cleanTranscript buf
        let ctx2 : SegContext := { ctx1 with transcriptBuffer := "" }
        if textUtils.hasMinimumQuality fullUtterance then
          ⟨ctx2, some fullUtterance, some timeSinceLast, row⟩
        else ⟨ctx2, none, some timeSinceLast, row⟩
      else ⟨{ ctx1 with transcriptBuffer := buf }, none, some timeSinceLast, row⟩
    else ⟨ctx1, none, some timeSinceLast, row⟩

end Part009

/-! ## `part_003`: bounded transcription connect with retries -/

namespace Part003

/-- `MAX_RECONNECT_ATTEMPTS`. -/
def MAX_RECONNECT_ATTEMPTS : Nat := 3

/-- `RECONNECT_DELAY` (ms). -/
def RECONNECT_DELAY : Nat := 2000

/-- `CONNECTION_TIMEOUT` (ms). -/
def CONNECTION_TIMEOUT : Nat := 5000

/-- Outcome of one Deepgram connection attempt: the socket opened,
the 5-second connection timer fired first, or the socket errored. -/
inductive AttemptOutcome where
  | opened
  | timedOut
  | errored
deriving DecidableEq, Repr

/-- Result of a `connectToDeepgram` call chain: whether the promise
resolved, the number of the last attempt made, and the total
milliseconds spent in connection timeouts and inter-attempt delays. -/
structure ConnectResult where
  ok : Bool
  attemptsMade : Nat
  waitedMs : Nat
deriving DecidableEq, Repr

/-- Settlement of the `connectToDeepgram(callId, attempt)` promise
of `part_003`, followed along the first retry chain.  `outcomes d`
is the outcome shared by every connection attempt whose counter is
`d`, so all parallel chains (see `totalConnectionAttempts`) behave
alike at each depth and the first `resolve`/`reject` to run — the
only settlement that matters, later ones being no-ops — is that of
the chain retrying once per failure.  A timed-out attempt costs
`CONNECTION_TIMEOUT`; a failed attempt retries after
`RECONNECT_DELAY` while `attempt < MAX_RECONNECT_ATTEMPTS`
(`remaining` counts the retries still allowed, i.e.
`MAX_RECONNECT_ATTEMPTS - attempt`); with no retries left the
promise rejects. -/
def connectAttempt (outcomes : Nat → AttemptOutcome) : Nat → Nat → ConnectResult
  | attempt, remaining =>
    match outcomes attempt with
    | AttemptOutcome.opened => ⟨true, attempt, 0⟩
    | o =>
      let waitHere := match o with
        | AttemptOutcome.timedOut => CONNECTION_TIMEOUT
        | _ => 0
      match remaining with
      | 0 => ⟨false, attempt, waitHere⟩
      | r + 1 =>
        let rest := connectAttempt outcomes (attempt + 1) r
        ⟨rest.ok, rest.attemptsMade, waitHere + RECONNECT_DELAY + rest.waitedMs⟩

/-- Settlement of the full connect procedure: attempt counters start
at 1 and the counter of any attempt is bounded by
`MAX_RECONNECT_ATTEMPTS`; the number of attempts is not (see
`totalConnectionAttempts`). -/
def connectToDeepgram (outcomes : Nat → AttemptOutcome) : ConnectResult :=
  connectAttempt outcomes 1 (MAX_RECONNECT_ATTEMPTS - 1)

/-- Number of retries of `connectToDeepgram(callId, attempt + 1)`
scheduled when an attempt does not open: a timed-out attempt
schedules one retry from the connection-timeout handler and a second
from the `close` handler that fires after the timeout handler's
`ws.close()`; an errored attempt schedules retries from the `error`
handler, from the `close` handler that follows it, and from the
connection-timeout handler, which is never cleared on error.  An
attempt that opens clears the timer and schedules none. -/
def retriesScheduled : AttemptOutcome → Nat
  | AttemptOutcome.opened => 0
  | AttemptOutcome.timedOut => 2
  | AttemptOutcome.errored => 3

/-- Total number of WebSocket connection attempts created under one
attempt node: every scheduled retry runs the full
`connectToDeepgram(callId, attempt + 1)` — even when the promise has
already settled, a later `resolve`/`reject` being a no-op — and a
node whose counter has reached `MAX_RECONNECT_ATTEMPTS`
(`remaining = 0`) schedules no retry. -/
def attemptFanOut (outcomes : Nat → AttemptOutcome) : Nat → Nat → Nat
  | attempt, remaining =>
    match outcomes attempt with
    | AttemptOutcome.opened => 1
    | o =>
      match remaining with
      | 0 => 1
      | r + 1 => 1 + retriesScheduled o * attemptFanOut outcomes (attempt + 1) r

/-- Total number of WebSocket connection attempts made by a
`connectToDeepgram(callId, 1)` call, counting all parallel retry
chains. -/
def totalConnectionAttempts (outcomes : Nat → AttemptOutcome) : Nat :=
  attemptFanOut outcomes 1 (MAX_RECONNECT_ATTEMPTS - 1)

/-- The `app.ws('/listen')` handler of `part_003` around the connect:
when `connectToDeepgram` rejects, the handler closes the Plivo
websocket and returns.  Yields whether the caller transport socket
was closed by this failure path. -/
def plivoClosedOnConnectFailure (outcomes : Nat → AttemptOutcome) : Bool :=
  !(connectToDeepgram outcomes).ok

end Part003


/-! ## Helper lemmas -/

theorem sendBuffered_open (l : List Part001.Frame) :
    Part001.sendBuffered true l = l := by
  induction l with
  | nil => rfl
  | cons d rest ih => simp [Part001.sendBuffered, ih]

theorem bufferIncomingAudio_spec (frames : List Part001.Frame) :
    ∀ b : Part001.AudioBuffer,
      Part001.bufferIncomingAudio frames b =
        ⟨b.buffer ++ frames, b.isConnecting⟩ := by
  induction frames with
  | nil => intro b; simp [Part001.bufferIncomingAudio]
  | cons f rest ih =>
    intro b
    have step : Part001.bufferIncomingAudio (f :: rest) b =
        Part001.bufferIncomingAudio rest (b.add f) := by
      simp [Part001.bufferIncomingAudio, List.foldl_cons]
    rw [step, ih]
    simp [Part001.AudioBuffer.add]

theorem connectAttempt_attempts_le (oc : Nat → Part003.AttemptOutcome) :
    ∀ (remaining attempt : Nat),
      (Part003.connectAttempt oc attempt remaining).attemptsMade ≤ attempt + remaining := by
  intro remaining
  induction remaining with
  | zero =>
    intro attempt
    unfold Part003.connectAttempt
    cases h : oc attempt <;> simp
  | succ r ih =>
    intro attempt
    unfold Part003.connectAttempt
    cases h : oc attempt <;> simp
    · have := ih (attempt + 1)
      omega
    · have := ih (attempt + 1)
      omega

theorem retriesScheduled_le (o : Part003.AttemptOutcome) :
    Part003.retriesScheduled o ≤ 3 := by
  cases o <;> decide

theorem attemptFanOut_zero (oc : Nat → Part003.AttemptOutcome) (a : Nat) :
    Part003.attemptFanOut oc a 0 = 1 := by
  unfold Part003.attemptFanOut
  cases h : oc a <;> rfl

theorem attemptFanOut_le_one (oc : Nat → Part003.AttemptOutcome) (a : Nat) :
    Part003.attemptFanOut oc a 1 ≤ 4 := by
  unfold Part003.attemptFanOut
  have h0 := attemptFanOut_zero oc (a + 1)
  cases h : oc a <;> simp [Part003.retriesScheduled, h0]

theorem attemptFanOut_le_two (oc : Nat → Part003.AttemptOutcome) (a : Nat) :
    Part003.attemptFanOut oc a 2 ≤ 13 := by
  unfold Part003.attemptFanOut
  have h1 := attemptFanOut_le_one oc (a + 1)
  cases h : oc a <;> simp [Part003.retriesScheduled] <;> omega

/-! ## Claim theorems -/

/-- Claim C1: the end-of-turn test `textUtils.isEndOfThought` returns
`true` exactly when the elapsed time exceeds 1500 ms, the trimmed
text ends in `.`, `!` or `?`, or the lowercased trimmed text ends
with one of the fixed closing phrases; and the `part_001` Deepgram
message handler never evaluates end-of-turn for a non-final fragment
(such a fragment leaves the buffer unchanged and emits nothing). -/
theorem c1_end_of_turn_rule :
    (∀ (t : String) (dt : Int),
      textUtils.isEndOfThought t dt = true ↔
        (dt > 1500 ∨ endsInTerminalPunct (jsTrim t.data) = true ∨
         ∃ p ∈ textUtils.endPhrases,
           p.data.isSuffixOf (jsTrim (jsLower t.data)) = true)) ∧
    (∀ (b : String) (msg : Part001.DgMessage), msg.is_final = false →
      Part001.handleDeepgramMessage b msg = (b, none)) := by
  constructor
  · intro t dt
    unfold textUtils.isEndOfThought
    by_cases h1 : dt > 1500
    · simp [h1]
    · by_cases h2 : endsInTerminalPunct (jsTrim t.data) = true
      · simp [h1, h2]
      · simp only [h1, if_false, h2]
        simp [List.any_eq_true, h1, h2]
  · intro b msg h
    unfold Part001.handleDeepgramMessage
    simp [h]

/-- Witness for C1 at a concrete non-final fragment. -/
theorem c1_end_of_turn_rule_witness :
    Part001.handleDeepgramMessage "abc" ⟨true, false, some "hi."⟩ = ("abc", none) :=
  c1_end_of_turn_rule.2 "abc" ⟨true, false, some "hi."⟩ rfl

/-- Claim C2: frames buffered by `AudioBuffer.add` while the Deepgram
connection is not open are all delivered, in arrival order, with no
duplication or loss, by the buffered-audio drain once the connection
is open, and the buffer is cleared. -/
theorem c2_audio_buffer_drain (frames : List Part001.Frame) (flag : Bool) :
    Part001.drainBufferedAudio true
        (Part001.bufferIncomingAudio frames ⟨[], flag⟩) =
      (frames, ⟨[], flag⟩) := by
  rw [bufferIncomingAudio_spec]
  cases frames with
  | nil => simp [Part001.drainBufferedAudio]
  | cons f rest =>
    simp [Part001.drainBufferedAudio, Part001.AudioBuffer.clear, sendBuffered_open]

/-- Counterexample to claim C3: a filler-only fragment ("umm") does
reset the last-fragment timestamp used by the silence rule — the
`part_009` handler sets `lastProcessedTime` before the filler gate. -/
theorem c3_filler_counterexample :
    textUtils.isFiller "umm" = true ∧
    (Part009.processFragment ⟨"", 0⟩ "umm" 1 100).ctx.lastProcessedTime = 100 ∧
    (100 : Int) ≠ 0 := by
  decide

/-- Claim C3 (amended): a filler-only fragment is never appended to
the pending transcript buffer and never triggers an utterance
emission, but it does update the last-fragment timestamp
(`lastProcessedTime`) to its arrival time. -/
theorem c3_filler_gate (ctx : Part009.SegContext) (t : String) (c : ℚ) (now : Int)
    (ht : t ≠ "") (hf : textUtils.isFiller t = true) :
    (Part009.processFragment ctx t c now).ctx.transcriptBuffer = ctx.transcriptBuffer ∧
    (Part009.processFragment ctx t c now).emitted = none ∧
    (Part009.processFragment ctx t c now).ctx.lastProcessedTime = now := by
  unfold Part009.processFragment
  simp [ht, hf]

/-- Witness for C3 (amended) at a concrete filler fragment. -/
theorem c3_filler_gate_witness :
    (Part009.processFragment ⟨"so far", 7⟩ "umm" 1 100).ctx.transcriptBuffer = "so far" ∧
    (Part009.processFragment ⟨"so far", 7⟩ "umm" 1 100).emitted = none ∧
    (Part009.processFragment ⟨"so far", 7⟩ "umm" 1 100).ctx.lastProcessedTime = 100 :=
  c3_filler_gate ⟨"so far", 7⟩ "umm" 1 100 (by decide) (by decide)

/-- Claim C4: when the end-of-turn rule fires in the `part_001`
handler, the pending buffer is cleared in either outcome, and the
accumulated utterance is emitted exactly when its cleaned text passes
`hasMinimumQuality` (the ≥2-words-and-≥5-characters variant); the
`index.js` variant of the gate accepts exactly the texts whose
trimmed form has at least two characters. -/
theorem c4_minimum_quality_gate (b t : String) (ht : jsTrim t.data ≠ [])
    (he : textUtils.isEndOfThought t 1000 = true) :
    ((Part001.handleDeepgramMessage b ⟨true, true, some t⟩).1 = "" ∧
     ((Part001.handleDeepgramMessage b ⟨true, true, some t⟩).2 =
        some (textUtils.cleanTranscript (b ++ " " ++ t)) ↔
        textUtils.hasMinimumQuality (textUtils.cleanTranscript (b ++ " " ++ t)) = true) ∧
     ((Part001.handleDeepgramMessage b ⟨true, true, some t⟩).2 = none ↔
        textUtils.hasMinimumQuality (textUtils.cleanTranscript (b ++ " " ++ t)) = false)) ∧
    (∀ s, IndexJs.hasMinimumQuality s = true ↔ (jsTrim s.data).length ≥ 2) := by
  constructor
  · unfold Part001.handleDeepgramMessage
    by_cases hq : textUtils.hasMinimumQuality (textUtils.cleanTranscript (b ++ " " ++ t)) = true
    · simp [ht, he, hq]
    · simp [ht, he, hq]
  · intro s
    unfold IndexJs.hasMinimumQuality
    simp

/-- Witness for C4 at a concrete finished turn. -/
theorem c4_minimum_quality_gate_witness :
    (Part001.handleDeepgramMessage "so" ⟨true, true, some "done."⟩).1 = "" :=
  ((c4_minimum_quality_gate "so" "done." (by decide) (by decide)).1).1

/-- Claim C5: with `MAX_REQUESTS_PER_WINDOW` (50) admissions already
recorded inside the 60-second window, a further request is rejected
by `checkRateLimit` and `generateAIResponse` returns the fixed "too
many requests" apology without invoking the OpenAI service, touching
the conversation messages, recording a metric, or writing a turn
row. -/
theorem c5_rate_limit_fallback (messages : List Message) (rl : List Int)
    (now : Int) (u : String) (o : Part001.OpenAIOutcome) (r : Nat)
    (hlen : rl.length ≥ Part001.MAX_REQUESTS_PER_WINDOW)
    (hwin : ∀ t ∈ rl, now - Part001.RATE_LIMIT_WINDOW ≤ t) :
    Part001.checkRateLimit now rl = (false, rl) ∧
    Part001.generateAIResponse true messages rl now u o r =
      ⟨some Part001.rateLimitApology, messages, rl, false, false, false⟩ := by
  have hdrop : rl.dropWhile (fun t => decide (t < now - Part001.RATE_LIMIT_WINDOW)) = rl := by
    cases rl with
    | nil => rfl
    | cons a as =>
      have ha := hwin a (List.mem_cons_self a as)
      rw [List.dropWhile_cons]
      simp [ha, not_lt.mpr ha]
  have hcheck : Part001.checkRateLimit now rl = (false, rl) := by
    unfold Part001.checkRateLimit
    rw [hdrop]
    have : ¬ rl.length < Part001.MAX_REQUESTS_PER_WINDOW := by omega
    simp [this]
  refine ⟨hcheck, ?_⟩
  unfold Part001.generateAIResponse
  rw [hcheck]
  simp

/-- Witness for C5 at a full window of 50 admissions. -/
theorem c5_rate_limit_fallback_witness :
    Part001.checkRateLimit 0 (List.replicate 50 0) = (false, List.replicate 50 0) :=
  (c5_rate_limit_fallback [] (List.replicate 50 0) 0 "" (Part001.OpenAIOutcome.ok none) 0
    (by simp [Part001.MAX_REQUESTS_PER_WINDOW])
    (fun t ht => by
      have := List.eq_of_mem_replicate ht
      subst this
      decide)).1

/-- Counterexample to claim C6: when the OpenAI call fails, the
`part_001` catch block returns the random fallback line but never
appends an assistant turn to the conversation history — after the
failed exchange the history holds no assistant message at all. -/
theorem c6_fallback_history_counterexample :
    (Part001.generateAIResponse true [⟨Role.system, "sys"⟩] [] 0 "hi"
        Part001.OpenAIOutcome.err 0).response =
      some "Hello, I can hear you." ∧
    (∀ m ∈ (Part001.generateAIResponse true [⟨Role.system, "sys"⟩] [] 0 "hi"
        Part001.OpenAIOutcome.err 0).messages, m.role ≠ Role.assistant) := by
  decide

/-- Claim C6 (amended): if the reply-generation call fails,
`generateAIResponse` returns a pseudo-randomly selected line of the
fixed fallback pool instead of propagating the error (the session
continues), but the fallback text is not recorded in the conversation
history: only the user turn is appended. -/
theorem c6_generation_failure_fallback (messages : List Message) (rl : List Int)
    (now : Int) (u : String) (r : Nat)
    (hadm : (Part001.checkRateLimit now rl).1 = true) :
    (Part001.generateAIResponse true messages rl now u Part001.OpenAIOutcome.err r).response =
      some (Part001.FALLBACK_RESPONSES.getD (r % Part001.FALLBACK_RESPONSES.length) "") ∧
    Part001.FALLBACK_RESPONSES.getD (r % Part001.FALLBACK_RESPONSES.length) ""
      ∈ Part001.FALLBACK_RESPONSES ∧
    (Part001.generateAIResponse true messages rl now u Part001.OpenAIOutcome.err r).response ≠
      none ∧
    (Part001.generateAIResponse true messages rl now u Part001.OpenAIOutcome.err r).messages =
      Part001.updateContext messages ⟨Role.user, u⟩ := by
  have hr : r % Part001.FALLBACK_RESPONSES.length < Part001.FALLBACK_RESPONSES.length :=
    Nat.mod_lt _ (by decide)
  have hmem : Part001.FALLBACK_RESPONSES.getD (r % Part001.FALLBACK_RESPONSES.length) ""
      ∈ Part001.FALLBACK_RESPONSES := by
    rw [List.getD_eq_getElem _ _ hr]
    exact List.getElem_mem hr
  rcases h : Part001.checkRateLimit now rl with ⟨adm, ts⟩
  rw [h] at hadm
  simp at hadm
  subst hadm
  unfold Part001.generateAIResponse
  rw [h]
  exact ⟨rfl, hmem, by simp, rfl⟩

/-- Witness for C6 (amended) at a concrete failed OpenAI call. -/
theorem c6_generation_failure_fallback_witness :
    (Part001.generateAIResponse true [] [] 0 "a" Part001.OpenAIOutcome.err 5).response =
      some (Part001.FALLBACK_RESPONSES.getD (5 % Part001.FALLBACK_RESPONSES.length) "") :=
  (c6_generation_failure_fallback [] [] 0 "a" 5 (by decide)).1

/-- Counterexample to claim C7: when every connection attempt times
out, the connection-timeout handler and the `close` handler that
follows its `ws.close()` each schedule a retry, so parallel retry
chains make 7 WebSocket connection attempts — the claimed "at most 3
attempts" bound is false of the program. -/
theorem c7_attempt_bound_counterexample :
    Part003.totalConnectionAttempts (fun _ => Part003.AttemptOutcome.timedOut) = 7 ∧
    ¬ Part003.totalConnectionAttempts (fun _ => Part003.AttemptOutcome.timedOut) ≤ 3 := by
  decide

/-- Claim C7 (amended): a `part_003` transcription connect is
bounded, but not by 3 attempts: the per-attempt connection timeout
is 5000 ms and retries wait 2000 ms; the attempt *counter* of every
attempt is bounded by `MAX_RECONNECT_ATTEMPTS` = 3, yet because the
timeout, `error` and `close` handlers each schedule their own retry,
at most 13 connection attempts are made — exactly 7 when every
attempt times out and exactly 13 when every attempt errors.  The
connect promise still settles exactly once (later settlements are
no-ops): in the all-timeout run it rejects with the third attempt of
the first chain after 3·5000 + 2·2000 ms of timeouts and delays, and
the `/listen` handler then closes the caller transport socket. -/
theorem c7_connect_bounded :
    Part003.CONNECTION_TIMEOUT = 5000 ∧ Part003.RECONNECT_DELAY = 2000 ∧
    Part003.MAX_RECONNECT_ATTEMPTS = 3 ∧
    (∀ oc, (Part003.connectToDeepgram oc).attemptsMade ≤ 3) ∧
    (∀ oc, Part003.totalConnectionAttempts oc ≤ 13) ∧
    (∀ oc, (∀ i, oc i = Part003.AttemptOutcome.timedOut) →
      Part003.totalConnectionAttempts oc = 7 ∧
      Part003.connectToDeepgram oc =
        ⟨false, 3, 3 * Part003.CONNECTION_TIMEOUT + 2 * Part003.RECONNECT_DELAY⟩ ∧
      Part003.plivoClosedOnConnectFailure oc = true) ∧
    (∀ oc, (∀ i, oc i = Part003.AttemptOutcome.errored) →
      Part003.totalConnectionAttempts oc = 13) := by
  refine ⟨rfl, rfl, rfl, ?_, ?_, ?_, ?_⟩
  · intro oc
    show (Part003.connectAttempt oc 1 2).attemptsMade ≤ 3
    have h := connectAttempt_attempts_le oc 2 1
    omega
  · intro oc
    show Part003.attemptFanOut oc 1 2 ≤ 13
    exact attemptFanOut_le_two oc 1
  · intro oc hall
    have hoc : oc = fun _ => Part003.AttemptOutcome.timedOut := funext hall
    subst hoc
    exact ⟨by decide, by decide, by decide⟩
  · intro oc hall
    have hoc : oc = fun _ => Part003.AttemptOutcome.errored := funext hall
    subst hoc
    decide

/-- Witness for C7 (amended) with every attempt timing out. -/
theorem c7_connect_bounded_witness :
    Part003.totalConnectionAttempts (fun _ => Part003.AttemptOutcome.timedOut) = 7 ∧
    Part003.plivoClosedOnConnectFailure (fun _ => Part003.AttemptOutcome.timedOut) = true :=
  ⟨(c7_connect_bounded.2.2.2.2.2.1 (fun _ => Part003.AttemptOutcome.timedOut)
      (fun _ => rfl)).1,
   (c7_connect_bounded.2.2.2.2.2.1 (fun _ => Part003.AttemptOutcome.timedOut)
      (fun _ => rfl)).2.2⟩

/-- Claim C8: both history-append operations
(`ConversationManager.updateContext` of `part_001` and
`ConversationManager.add` of `index.js`) preserve the invariant that
the message list has at most 10 entries and still starts with the
original system message; an append that would exceed the bound keeps
the head plus the 9 most recent entries. -/
theorem c8_history_bound (sys m : Message) (l : List Message)
    (hhead : l.head? = some sys) (hlen : l.length ≤ 10) :
    ((Part001.updateContext l m).head? = some sys ∧
     (Part001.updateContext l m).length ≤ 10) ∧
    ((IndexJs.add l m).head? = some sys ∧ (IndexJs.add l m).length ≤ 10) := by
  cases l with
  | nil => simp at hhead
  | cons a as =>
    simp only [List.head?_cons, Option.some.injEq] at hhead
    subst hhead
    simp only [List.length_cons] at hlen
    constructor
    · unfold Part001.updateContext
      by_cases hb : (a :: as ++ [m]).length > 10
      · simp only [hb, if_true]
        constructor
        · simp [List.take_cons]
        · simp only [List.length_append, List.length_take, List.length_drop,
            List.length_cons, List.length_append] at hb ⊢
          omega
      · simp only [hb, if_false]
        simp only [List.length_append, List.length_cons, List.length_append,
          Nat.not_lt] at hb ⊢
        constructor
        · simp [List.head?_append]
        · omega
    · unfold IndexJs.add
      by_cases hb : (a :: as ++ [m]).length > 10
      · simp only [hb, if_true]
        constructor
        · simp [List.take_cons]
        · simp only [List.length_append, List.length_take, List.length_drop,
            List.length_cons, List.length_append] at hb ⊢
          omega
      · simp only [hb, if_false]
        simp only [List.length_append, List.length_cons, List.length_append,
          Nat.not_lt] at hb ⊢
        constructor
        · simp [List.head?_append]
        · omega

/-- Witness for C8 from a history holding only the system message. -/
theorem c8_history_bound_witness :
    ((Part001.updateContext [⟨Role.system, "s"⟩] ⟨Role.user, "u"⟩).head? =
      some ⟨Role.system, "s"⟩) :=
  ((c8_history_bound ⟨Role.system, "s"⟩ ⟨Role.user, "u"⟩ [⟨Role.system, "s"⟩]
    rfl (by decide)).1).1

/-- Counterexample to claim C9: a fragment with confidence 0.1
(below the alleged 0.7 threshold) is not discarded — the `part_009`
handler emits it inside an utterance and stores its transcript row;
no confidence comparison exists in the code. -/
theorem c9_confidence_counterexample :
    ((1 : ℚ) / 10 < 7 / 10) ∧
    (Part009.processFragment ⟨"", 0⟩ "hello there." (1 / 10) 100).emitted =
      some "hello there." ∧
    (Part009.processFragment ⟨"", 0⟩ "hello there." (1 / 10) 100).storedRow =
      some ("hello there.", 1 / 10) := by
  refine ⟨by norm_num, by decide, rfl⟩

/-- Claim C9 (amended): the handler reads the fragment's confidence
but never compares it with any threshold: the segmenter state, the
emitted utterance and the metric sample are independent of the
confidence value, and a non-empty non-filler fragment below 0.7 is
still appended to the pending buffer (when it does not end the
turn). -/
theorem c9_confidence_ignored :
    (∀ (ctx : Part009.SegContext) (t : String) (c₁ c₂ : ℚ) (now : Int),
      (Part009.processFragment ctx t c₁ now).ctx =
        (Part009.processFragment ctx t c₂ now).ctx ∧
      (Part009.processFragment ctx t c₁ now).emitted =
        (Part009.processFragment ctx t c₂ now).emitted ∧
      (Part009.processFragment ctx t c₁ now).userSpeakingMs =
        (Part009.processFragment ctx t c₂ now).userSpeakingMs) ∧
    (∀ (ctx : Part009.SegContext) (t : String) (c : ℚ) (now : Int),
      c < 7 / 10 → t ≠ "" → textUtils.isFiller t = false →
      textUtils.isEndOfThought t (now - ctx.lastProcessedTime) = false →
      (Part009.processFragment ctx t c now).ctx.transcriptBuffer =
        ctx.transcriptBuffer ++ " " ++ t) := by
  constructor
  · intro ctx t c₁ c₂ now
    unfold Part009.processFragment
    by_cases h0 : t = "" <;>
      by_cases hf : textUtils.isFiller t <;>
        by_cases he : textUtils.isEndOfThought t (now - ctx.lastProcessedTime) <;>
          by_cases hq : textUtils.hasMinimumQuality
              (textUtils.cleanTranscript (ctx.transcriptBuffer ++ " " ++ t)) <;>
            simp [h0, hf, he, hq]
  · intro ctx t c now _ h0 hf he
    unfold Part009.processFragment
    simp [h0, hf, he]

/-- Witness for C9 (amended) at a concrete low-confidence fragment. -/
theorem c9_confidence_ignored_witness :
    (Part009.processFragment ⟨"", 0⟩ "hello" (0 : ℚ) 100).ctx.transcriptBuffer =
      " hello" :=
  c9_confidence_ignored.2 ⟨"", 0⟩ "hello" 0 100 (by norm_num) (by decide) (by decide)
    (by decide)

/-- Claim C10: when the rate limiter rejects, `generateAIResponse`
leaves the conversation messages untouched (no user turn, no
assistant turn), records no response-time metric, writes no
conversation-turn row, does not invoke OpenAI, and the only mutation
is the eviction of expired timestamps from the shared limiter. -/
theorem c10_rate_limited_frame (messages : List Message) (rl : List Int)
    (now : Int) (u : String) (o : Part001.OpenAIOutcome) (r : Nat)
    (hrej : (Part001.checkRateLimit now rl).1 = false) :
    (Part001.generateAIResponse true messages rl now u o r).messages = messages ∧
    (Part001.generateAIResponse true messages rl now u o r).responseTimeRecorded = false ∧
    (Part001.generateAIResponse true messages rl now u o r).turnRowWritten = false ∧
    (Part001.generateAIResponse true messages rl now u o r).openaiInvoked = false ∧
    (Part001.generateAIResponse true messages rl now u o r).requestTimestamps =
      rl.dropWhile (fun t => decide (t < now - Part001.RATE_LIMIT_WINDOW)) := by
  rcases h : Part001.checkRateLimit now rl with ⟨adm, ts⟩
  rw [h] at hrej
  simp at hrej
  subst hrej
  have hts : ts = rl.dropWhile (fun t => decide (t < now - Part001.RATE_LIMIT_WINDOW)) := by
    unfold Part001.checkRateLimit at h
    by_cases hD : (rl.dropWhile
        (fun t => decide (t < now - Part001.RATE_LIMIT_WINDOW))).length <
        Part001.MAX_REQUESTS_PER_WINDOW
    · simp [hD] at h
    · simp [hD] at h
      exact h.symm
  unfold Part001.generateAIResponse
  rw [h]
  exact ⟨rfl, rfl, rfl, rfl, hts⟩

/-- Witness for C10 at a full window of 50 admissions. -/
theorem c10_rate_limited_frame_witness :
    (Part001.generateAIResponse true [] (List.replicate 50 0) 0 "hi"
        Part001.OpenAIOutcome.err 0).messages = ([] : List Message) :=
  (c10_rate_limited_frame [] (List.replicate 50 0) 0 "hi"
    Part001.OpenAIOutcome.err 0 (by decide)).1
